import Mathlib

/-!
The httpx middlewares: LogRequests, Recovery, getCallstack.

A shallow embedding of `src/httpx/middleware.go`.

Effects are made explicit: a handler is a function from the state of the world
(gin context, records handed to the default slog logger, calls made on the
Telegram client, the clock) to an outcome, which is the new state together with
the way the call ended (normal return, or a panic unwinding through the caller).
-/

namespace httpx

/-! ## runtime frames and `getCallstack` -/

/-- Go `runtime.Frame`, restricted to the two fields `getCallstack` reads. -/
structure Frame where
  Function : String
  Line : Int
  deriving DecidableEq, Repr

/-- The zero `runtime.Frame`, returned by `Frames.Next` once the frames are exhausted. -/
def Frame.zero : Frame := ⟨"", 0⟩

/-- Go `runtime.Callers(skip, pcs)` followed by `pcs[:depth]`, with `len(pcs) = n`.
The argument `stack` is the call stack of the goroutine, innermost first, with
index 0 the frame of `runtime.Callers` itself. The first `skip` frames are left
out and at most `n` of the following ones are stored. -/
def Callers (skip n : Nat) (stack : List Frame) : List Frame :=
  (stack.drop skip).take n

/-- Go `(*runtime.Frames).Next`: the next frame, the flag `more` telling whether
further frames follow it, and the iterator after the call. With nothing left it
returns the zero frame and `false`. -/
def Frames.Next : List Frame → Frame × Bool × List Frame
  | [] => (Frame.zero, false, [])
  | [f] => (f, false, [])
  | f :: g :: rest => (f, true, g :: rest)

/-- The argument of `sb.WriteString` at line 78: `fmt.Sprintf("%s: %d\n", f.Function, f.Line)`. -/
def frameLine (f : Frame) : String :=
  f.Function ++ ": " ++ toString f.Line ++ "\n"

/-- The rendering `<function-name>: <line-number>` of one frame, without a newline. -/
def frameText (f : Frame) : String :=
  f.Function ++ ": " ++ toString f.Line

/-- The `for f, more := frames.Next(); more; f, more = frames.Next()` loop of
`getCallstack` (lines 77-79), entered with the result `(f, more)` of the call of
`Next` that has just been made, the iterator `frames` after that call and the
builder contents `sb`. -/
def getCallstack.loop (sb : String) (f : Frame) (more : Bool) (frames : List Frame) : String :=
  if more then
    getCallstack.loop (sb ++ frameLine f) (Frames.Next frames).1 (Frames.Next frames).2.1
      (Frames.Next frames).2.2
  else sb
termination_by frames.length + (if more then 1 else 0)
decreasing_by
  all_goals
    rcases frames with _ | ⟨_, _ | ⟨_, _⟩⟩ <;> simp_all [Frames.Next]

/-- Go `getCallstack` (lines 71-82), as a function of the goroutine's call stack
observed by `runtime.Callers` (index 0 is `runtime.Callers` itself). -/
def getCallstack (stack : List Frame) : String :=
  let frames := Callers 3 20 stack
  getCallstack.loop "" (Frames.Next frames).1 (Frames.Next frames).2.1 (Frames.Next frames).2.2

/-! ## net/url, net/http and gin values -/

/-- Go `url.Values` and `http.Header`, both `map[string][]string`: a key is
either absent (`none`) or bound to a list of values. -/
abbrev Values := String → Option (List String)

/-- Go `url.Values.Has`: whether the key is set. -/
def Values.Has (v : Values) (key : String) : Bool :=
  (v key).isSome

/-- Go `url.Values.Set`: binds the key to the single value, replacing any existing values. -/
def Values.Set (v : Values) (key value : String) : Values :=
  fun k => if k = key then some [value] else v k

/-- Go `url.URL`, restricted to what `LogRequests` reads. The field `Query` is the
map returned by the method `URL.Query()`, which parses the raw query string into
a fresh map at each call. -/
structure URL where
  Scheme : String
  Host : String
  Path : String
  Query : Values

/-- Go `http.Request`, restricted to what `LogRequests` reads. -/
structure Request where
  Method : String
  URL : URL
  ContentLength : Int
  Header : Values

/-- The part of `gin.Context` the middlewares touch: the request, and the response
state: the status code held by the response writer, the body written so far,
whether the response header has already been written (`c.Writer.Written()`),
and whether the chain has been aborted (`c.IsAborted()`). -/
structure Context where
  Request : Request
  status : Int
  body : String
  written : Bool
  aborted : Bool

/-- Go `http.StatusInternalServerError`. -/
def StatusInternalServerError : Int := 500

/-- Gin `(*Context).Status(code)`, which is `c.Writer.WriteHeader(code)`: the
status held by the writer becomes `code`, unless the response header has already
been written, in which case gin only prints a warning and the status stays. -/
def Context.Status (c : Context) (code : Int) : Context :=
  if 0 < code ∧ c.status ≠ code then
    if c.written then c else { c with status := code }
  else c

/-- Gin `c.Writer.WriteHeaderNow()`: the header is written with the status held by
the writer, if that has not happened yet. -/
def Context.WriteHeaderNow (c : Context) : Context :=
  if c.written then c else { c with written := true }

/-- Gin `(*Context).Abort()`: no pending handler of the chain is run. -/
def Context.Abort (c : Context) : Context :=
  { c with aborted := true }

/-- Gin `(*Context).AbortWithStatus(code)`: `c.Status(code)`, then
`c.Writer.WriteHeaderNow()`, then `c.Abort()`. -/
def Context.AbortWithStatus (c : Context) (code : Int) : Context :=
  ((c.Status code).WriteHeaderNow).Abort

/-! ## slog records and the Telegram client -/

/-- Severity of a slog record (`slog.LevelInfo`, `slog.LevelError`). -/
inductive Level where
  | Info
  | Error
  deriving DecidableEq, Repr

/-- A value attached to a key of a slog record. -/
inductive Attr where
  | int64 (n : Int)
  | string (s : String)
  | values (v : Values)

/-- A record handed to the default slog logger: level, message and the key-value
pairs of the call, in argument order. -/
structure Record where
  Level : Level
  Message : String
  Attrs : List (String × Attr)

/-- The type `tgram.SendMessageRequest`, declared in package `tgram` outside the
sources at hand, with the three fields that `Recovery` fills at lines 55-60. -/
structure SendMessageRequest where
  ParseMode : String
  ChatID : Int
  Text : String
  deriving DecidableEq, Repr

/-- Modelled from the spec: the constant `tgram.ParseModeHTML` is declared in
package `tgram`, which is not part of the sources at hand; the spec calls it the
HTML-style rich-text formatting mode. -/
def ParseModeHTML : String := "HTML"

/-- A non-nil `tgram.Client`, declared in package `tgram` outside the sources at
hand and taken as given: what its `SendMessage` returns for a request, `none` for
a nil error and `some msg` for an error. -/
abbrev Client := SendMessageRequest → Option String

/-! ## handlers -/

/-- A non-nil value recovered from a panic. -/
inductive PanicValue where
  | str (s : String)
  | int (n : Int)
  | err (msg : String)
  deriving DecidableEq, Repr

/-- The `%v` rendering of a panic value by package `fmt`. -/
def PanicValue.fmtV : PanicValue → String
  | .str s => s
  | .int n => toString n
  | .err msg => msg

/-- The state of the world a handler runs in. -/
structure State where
  /-- The `*gin.Context` of the request. -/
  ctx : Context
  /-- The records handed to the default slog logger so far, oldest first. -/
  logs : List Record
  /-- The requests passed to `SendMessage` of the Telegram client so far, oldest first. -/
  sent : List SendMessageRequest
  /-- The reading of the clock (`time.Now()`), in nanoseconds. -/
  now : Int

/-- How a call ends: it returns, or it panics with a value. A panic carries the
call stack that `runtime.Callers` observes when `getCallstack` is called from
the deferred function that recovers it (index 0 is `runtime.Callers` itself). -/
inductive Exit where
  | returned
  | panicked (r : PanicValue) (stack : List Frame)
  deriving DecidableEq, Repr

/-- The result of running a handler: the state it leaves and the way it ended. -/
structure Outcome where
  state : State
  exit : Exit

/-- Gin `HandlerFunc`. The rest of the chain, which a middleware runs through
`c.Next()`, is a handler as well. -/
abbrev HandlerFunc := State → Outcome

/-- Go `slog.Info(msg, args...)` on the default logger. -/
def State.slogInfo (s : State) (msg : String) (args : List (String × Attr)) : State :=
  { s with logs := s.logs ++ [⟨Level.Info, msg, args⟩] }

/-- Go `slog.Error(msg)` on the default logger. -/
def State.slogError (s : State) (msg : String) : State :=
  { s with logs := s.logs ++ [⟨Level.Error, msg, []⟩] }

/-- A call `t.SendMessage(req)`: the call is recorded and the client answers. -/
def State.SendMessage (s : State) (t : Client) (req : SendMessageRequest) : Option String × State :=
  (t req, { s with sent := s.sent ++ [req] })

/-! ## the middlewares -/

/-- Lines 29-32 of `LogRequests`: the query values handed to the logger. -/
def redactedQuery (c : Context) : Values :=
  let q := c.Request.URL.Query
  if q.Has "access_key" then q.Set "access_key" "*****" else q

/-- Go `LogRequests` (lines 22-44). The argument `next` is the rest of the chain,
run by `c.Next()`. There is no `recover`: a panic of `next` unwinds through the
middleware and nothing after line 26 is executed. -/
def LogRequests (next : HandlerFunc) : HandlerFunc := fun s =>
  let t0 := s.now
  let o := next s
  match o.exit with
  | .panicked r stack => { state := o.state, exit := .panicked r stack }
  | .returned =>
    let c := o.state.ctx
    let q := redactedQuery c
    { state := o.state.slogInfo "inbound request"
        [("http.request.duration_ms", .int64 ((o.state.now - t0).tdiv 1000000)),
         ("http.request.method", .string c.Request.Method),
         ("http.request.url.scheme", .string c.Request.URL.Scheme),
         ("http.request.url.host", .string c.Request.URL.Host),
         ("http.request.url.path", .string c.Request.URL.Path),
         ("http.request.url.query_params", .values q),
         ("http.request.content_length", .int64 c.Request.ContentLength),
         ("http.request.headers", .values c.Request.Header)],
      exit := .returned }

/-- Go `Recovery` (lines 47-69). The argument `t` is `none` for a nil client and
`next` is the rest of the chain, run by `c.Next()`. The deferred function runs
when `next` has ended: `recover()` is nil after a normal return, and is the
panic value after a panic, which it stops. `fmt.Sprint` of two strings puts no
space between them, and the error returned by `SendMessage` is dropped. -/
def Recovery (t : Option Client) (reportChat : Int) (next : HandlerFunc) : HandlerFunc := fun s =>
  let o := next s
  match o.exit with
  | .returned => o
  | .panicked r stack =>
    let callstack := getCallstack stack
    let s1 := o.state.slogError ("recovered from panic" ++ callstack)
    let s2 :=
      match t with
      | none => s1
      | some client =>
        (s1.SendMessage client
          { ParseMode := ParseModeHTML,
            ChatID := reportChat,
            Text := "<b>Recovered from panic: " ++ r.fmtV ++ "</b>\n<code>" ++ callstack ++ "</code>" }).2
    { state := { s2 with ctx := s2.ctx.AbortWithStatus StatusInternalServerError },
      exit := .returned }

/-- The callstack text as the specification words it: the renderings
`<function-name>: <line-number>` of the frames, joined by newlines. -/
def callstackJoinedByNewlines (frames : List Frame) : String :=
  String.intercalate "\n" (frames.map frameText)

/-- The query values a record carries under the key `http.request.url.query_params`. -/
def Record.queryParams (r : Record) : Option Values :=
  match r.Attrs.lookup "http.request.url.query_params" with
  | some (.values v) => some v
  | _ => none

/-- The key-value pairs of a record other than the elapsed duration. -/
def Record.attrsButDuration (r : Record) : List (String × Attr) :=
  r.Attrs.filter (fun a => a.1 != "http.request.duration_ms")

/-- Two requests agree on method, scheme, host, path, content length, headers and
every query key other than `access_key`, and `access_key` is set in both or in
neither; the values it carries are free to differ. -/
def Request.AgreeButAccessKey (a b : Request) : Prop :=
  a.Method = b.Method ∧ a.URL.Scheme = b.URL.Scheme ∧ a.URL.Host = b.URL.Host ∧
  a.URL.Path = b.URL.Path ∧ a.ContentLength = b.ContentLength ∧ a.Header = b.Header ∧
  (∀ k, k ≠ "access_key" → a.URL.Query k = b.URL.Query k) ∧
  a.URL.Query.Has "access_key" = b.URL.Query.Has "access_key"

/-- The record built at lines 34-42 for a request whose handling started at clock
reading `t0` and whose downstream chain ended in state `s`. -/
def inboundRecord (t0 : Int) (s : State) : Record :=
  ⟨Level.Info, "inbound request",
    [("http.request.duration_ms", .int64 ((s.now - t0).tdiv 1000000)),
     ("http.request.method", .string s.ctx.Request.Method),
     ("http.request.url.scheme", .string s.ctx.Request.URL.Scheme),
     ("http.request.url.host", .string s.ctx.Request.URL.Host),
     ("http.request.url.path", .string s.ctx.Request.URL.Path),
     ("http.request.url.query_params", .values (redactedQuery s.ctx)),
     ("http.request.content_length", .int64 s.ctx.Request.ContentLength),
     ("http.request.headers", .values s.ctx.Request.Header)]⟩

/-! ## sample inputs -/

/-- A call stack as `runtime.Callers` sees it from `getCallstack` in the deferred
function of `Recovery`, with two frames beyond the three skipped ones. -/
def sampleStack : List Frame :=
  [⟨"runtime.Callers", 0⟩, ⟨"httpx.getCallstack", 73⟩, ⟨"httpx.Recovery.func1.1", 51⟩,
   ⟨"main.a", 1⟩, ⟨"main.b", 2⟩]

/-- The query `access_key=<key>&page=2`. -/
def sampleQuery (key : String) : Values :=
  fun k => if k = "access_key" then some [key] else if k = "page" then some ["2"] else none

/-- A state at the start of a request `GET https://example.org/books?access_key=<key>&page=2`. -/
def sampleState (key : String) : State :=
  { ctx :=
      { Request :=
          { Method := "GET",
            URL := { Scheme := "https", Host := "example.org", Path := "/books",
                     Query := sampleQuery key },
            ContentLength := 0,
            Header := fun k => if k = "Accept" then some ["text/html"] else none },
        status := 200, body := "", written := false, aborted := false },
    logs := [], sent := [], now := 0 }

/-- A downstream chain that takes five milliseconds, writes a body and returns. -/
def okHandler : HandlerFunc := fun s =>
  { state := { s with ctx := { s.ctx with body := "ok", written := true },
                      now := s.now + 5000000 },
    exit := .returned }

/-- A downstream chain that panics with the string `boom`. -/
def boomHandler : HandlerFunc := fun s =>
  { state := s, exit := .panicked (.str "boom") sampleStack }

/-- A downstream chain that writes a response with status 200 and the body
`partial` (as `c.String(200, "partial")` does) and then panics with `boom`. -/
def writeThenPanicHandler : HandlerFunc := fun s =>
  { state := { s with ctx := { s.ctx with status := 200, body := "partial", written := true } },
    exit := .panicked (.str "boom") sampleStack }

/-- A Telegram client whose `SendMessage` fails. -/
def failingClient : Client := fun _ => some "telegram: request failed"

/-! ## facts about `getCallstack` -/

theorem join_cons_eq (a : String) (l : List String) :
    String.join (a :: l) = a ++ String.join l := by
  simp [String.join_eq, String.ext_iff]

theorem loop_eq (l : List Frame) : ∀ sb : String,
    getCallstack.loop sb (Frames.Next l).1 (Frames.Next l).2.1 (Frames.Next l).2.2
      = sb ++ String.join (l.dropLast.map frameLine) := by
  induction l with
  | nil =>
    intro sb
    rw [getCallstack.loop]
    simp [Frames.Next, String.join_eq, String.ext_iff]
  | cons f rest ih =>
    intro sb
    cases rest with
    | nil =>
      rw [getCallstack.loop]
      simp [Frames.Next, String.join_eq, String.ext_iff]
    | cons g rest =>
      rw [getCallstack.loop]
      have h := ih (sb ++ frameLine f)
      simp only [Frames.Next, if_true] at h ⊢
      rw [h]
      simp [List.dropLast, join_cons_eq, String.append_assoc]

/-- What `getCallstack` returns: one line per captured frame but the last one,
every line ended by a newline. -/
theorem getCallstack_eq (stack : List Frame) :
    getCallstack stack = String.join ((Callers 3 20 stack).dropLast.map frameLine) := by
  unfold getCallstack
  rw [loop_eq]
  simp [String.ext_iff]

theorem Callers_length_le (skip n : Nat) (stack : List Frame) :
    (Callers skip n stack).length ≤ n := by
  simp [Callers, List.length_take]

/-! ## C9, C10: the callstack text -/

/-- C9 (as stated, fails): with the two captured frames `main.a: 1` and
`main.b: 2`, `getCallstack` returns `main.a: 1` followed by a newline, which is
not the two renderings joined by a newline. -/
theorem C9_counterexample :
    getCallstack sampleStack = "main.a: 1\n" ∧
    callstackJoinedByNewlines (Callers 3 20 sampleStack) = "main.a: 1\nmain.b: 2" ∧
    getCallstack sampleStack ≠ callstackJoinedByNewlines (Callers 3 20 sampleStack) := by
  rw [getCallstack_eq]
  decide

/-- C9 (amended): the string returned by `getCallstack` is the concatenation, in
capture order, of the lines `<function-name>: <line-number>` followed by a
newline each, of the captured frames written by the loop, which are the
captured frames with at most the last one left out. -/
theorem C9_getCallstack_lines (stack : List Frame) :
    ∃ fs : List Frame, fs <+: Callers 3 20 stack ∧
      (Callers 3 20 stack).length ≤ fs.length + 1 ∧
      (∀ f ∈ fs, frameLine f = frameText f ++ "\n") ∧
      getCallstack stack = String.join (fs.map frameLine) := by
  refine ⟨(Callers 3 20 stack).dropLast, List.dropLast_prefix _, ?_, ?_, getCallstack_eq stack⟩
  · simp only [List.length_dropLast]
    omega
  · intro f _
    rfl

/-- C10: for a call stack of any depth, the string returned by `getCallstack` is
made of the lines of at most 20 frames, which are consecutive frames of the
stack starting after the three skipped ones. -/
theorem C10_getCallstack_at_most_20 (stack : List Frame) :
    ∃ fs : List Frame, fs <+: stack.drop 3 ∧ fs.length ≤ 20 ∧
      getCallstack stack = String.join (fs.map frameLine) := by
  refine ⟨(Callers 3 20 stack).dropLast, ?_, ?_, getCallstack_eq stack⟩
  · exact List.IsPrefix.trans ( List.dropLast_prefix _)
      (by simpa [Callers] using List.take_prefix 20 (stack.drop 3))
  · have h := Callers_length_le 3 20 stack
    simp only [List.length_dropLast]
    omega

/-! ## facts about the middlewares -/

theorem LogRequests_returned (next : HandlerFunc) (s : State) (h : (next s).exit = .returned) :
    LogRequests next s =
      { state := { (next s).state with
          logs := (next s).state.logs ++ [inboundRecord s.now (next s).state] },
        exit := .returned } := by
  simp only [LogRequests, h, State.slogInfo, inboundRecord]

theorem LogRequests_panicked (next : HandlerFunc) (s : State) (r : PanicValue)
    (stack : List Frame) (h : (next s).exit = .panicked r stack) :
    LogRequests next s = { state := (next s).state, exit := .panicked r stack } := by
  simp only [LogRequests, h]

theorem Recovery_returned (t : Option Client) (reportChat : Int) (next : HandlerFunc) (s : State)
    (h : (next s).exit = .returned) : Recovery t reportChat next s = next s := by
  simp only [Recovery, h]

theorem Recovery_panicked_nil (reportChat : Int) (next : HandlerFunc) (s : State)
    (r : PanicValue) (stack : List Frame) (h : (next s).exit = .panicked r stack) :
    Recovery none reportChat next s =
      { state :=
          { ctx := (next s).state.ctx.AbortWithStatus 500,
            logs := (next s).state.logs ++
              [⟨Level.Error, "recovered from panic" ++ getCallstack stack, []⟩],
            sent := (next s).state.sent,
            now := (next s).state.now },
        exit := .returned } := by
  simp only [Recovery, h, State.slogError, StatusInternalServerError]

theorem Recovery_panicked_client (client : Client) (reportChat : Int) (next : HandlerFunc)
    (s : State) (r : PanicValue) (stack : List Frame) (h : (next s).exit = .panicked r stack) :
    Recovery (some client) reportChat next s =
      { state :=
          { ctx := (next s).state.ctx.AbortWithStatus 500,
            logs := (next s).state.logs ++
              [⟨Level.Error, "recovered from panic" ++ getCallstack stack, []⟩],
            sent := (next s).state.sent ++
              [⟨ParseModeHTML, reportChat,
                "<b>Recovered from panic: " ++ r.fmtV ++ "</b>\n<code>" ++ getCallstack stack
                  ++ "</code>"⟩],
            now := (next s).state.now },
        exit := .returned } := by
  simp only [Recovery, h, State.slogError, State.SendMessage, StatusInternalServerError]

theorem redactedQuery_absent (c : Context) (h : c.Request.URL.Query "access_key" = none) :
    redactedQuery c = c.Request.URL.Query := by
  simp [redactedQuery, Values.Has, h]

theorem redactedQuery_present (c : Context) (vals : List String)
    (h : c.Request.URL.Query "access_key" = some vals) :
    redactedQuery c = c.Request.URL.Query.Set "access_key" "*****" := by
  simp [redactedQuery, Values.Has, h]

/-! ## C1, C2, C8: LogRequests -/

/-- C1 (as stated, fails): for the request `?access_key=*****&page=2` the logged
query parameters bind `access_key` to `*****`, which is the original value of
`access_key`: an original value remains in the logged parameters. -/
theorem C1_counterexample :
    ∃ rec q, (LogRequests okHandler (sampleState "*****")).state.logs = [rec] ∧
      rec.queryParams = some q ∧
      (okHandler (sampleState "*****")).state.ctx.Request.URL.Query "access_key"
        = some ["*****"] ∧
      ¬ (∀ v ∈ ["*****"], ∀ vs, q "access_key" = some vs → v ∉ vs) := by
  refine ⟨inboundRecord (sampleState "*****").now (okHandler (sampleState "*****")).state,
    redactedQuery (okHandler (sampleState "*****")).state.ctx, ?_, ?_, ?_, ?_⟩
  · rw [LogRequests_returned _ _ rfl]
    rfl
  · rfl
  · rfl
  · intro hall
    exact hall "*****" (List.mem_singleton.mpr rfl) ["*****"] rfl (List.mem_singleton.mpr rfl)

/-- C1 (amended): when the downstream chain returns, LogRequests appends one
record whose query parameters are the parsed query parameters of the request if
`access_key` is not set, and otherwise the parsed parameters with `access_key`
bound to the single value `*****` and every other key unchanged, so that no
original value of `access_key` other than `*****` itself remains under
`access_key`. -/
theorem C1_logged_query_redacted (next : HandlerFunc) (s : State)
    (h : (next s).exit = .returned) :
    ∃ rec q, (LogRequests next s).state.logs = (next s).state.logs ++ [rec] ∧
      rec.queryParams = some q ∧
      ((next s).state.ctx.Request.URL.Query "access_key" = none →
        q = (next s).state.ctx.Request.URL.Query) ∧
      (∀ vals, (next s).state.ctx.Request.URL.Query "access_key" = some vals →
        q = (next s).state.ctx.Request.URL.Query.Set "access_key" "*****" ∧
        q "access_key" = some ["*****"] ∧
        (∀ k, k ≠ "access_key" → q k = (next s).state.ctx.Request.URL.Query k) ∧
        (∀ v ∈ vals, v ≠ "*****" → ∀ vs, q "access_key" = some vs → v ∉ vs)) := by
  refine ⟨inboundRecord s.now (next s).state, redactedQuery (next s).state.ctx, ?_, ?_, ?_, ?_⟩
  · rw [LogRequests_returned next s h]
  · rfl
  · exact redactedQuery_absent _
  · intro vals hv
    rw [redactedQuery_present _ vals hv]
    refine ⟨rfl, by simp [Values.Set], ?_, ?_⟩
    · intro k hk
      simp [Values.Set, hk]
    · intro v _ hne vs hvs
      simp only [Values.Set, if_true, Option.some.injEq] at hvs
      subst hvs
      simpa using hne

/-- C1, at the request `?access_key=s3cret&page=2` with a downstream chain that returns. -/
theorem C1_logged_query_redacted_witness :
    (okHandler (sampleState "s3cret")).exit = .returned ∧
    ∃ rec q, (LogRequests okHandler (sampleState "s3cret")).state.logs
        = (okHandler (sampleState "s3cret")).state.logs ++ [rec] ∧
      rec.queryParams = some q ∧
      ((okHandler (sampleState "s3cret")).state.ctx.Request.URL.Query "access_key" = none →
        q = (okHandler (sampleState "s3cret")).state.ctx.Request.URL.Query) ∧
      (∀ vals, (okHandler (sampleState "s3cret")).state.ctx.Request.URL.Query "access_key"
          = some vals →
        q = (okHandler (sampleState "s3cret")).state.ctx.Request.URL.Query.Set
              "access_key" "*****" ∧
        q "access_key" = some ["*****"] ∧
        (∀ k, k ≠ "access_key" →
          q k = (okHandler (sampleState "s3cret")).state.ctx.Request.URL.Query k) ∧
        (∀ v ∈ vals, v ≠ "*****" → ∀ vs, q "access_key" = some vs → v ∉ vs)) :=
  ⟨rfl, C1_logged_query_redacted okHandler (sampleState "s3cret") rfl⟩

/-- C2: take two runs of LogRequests in which the downstream chain returns and
the requests read by LogRequests agree on method, scheme, host, path, content
length, headers and every query key other than `access_key`, which is set in
both or in neither. Each run appends one record, and the two records have the
same level, the same message and the same key-value pairs apart from the
elapsed duration. -/
theorem C2_record_independent_of_access_key (next1 next2 : HandlerFunc) (s1 s2 : State)
    (h1 : (next1 s1).exit = .returned) (h2 : (next2 s2).exit = .returned)
    (hreq : Request.AgreeButAccessKey (next1 s1).state.ctx.Request
      (next2 s2).state.ctx.Request) :
    ∃ r1 r2, (LogRequests next1 s1).state.logs = (next1 s1).state.logs ++ [r1] ∧
      (LogRequests next2 s2).state.logs = (next2 s2).state.logs ++ [r2] ∧
      r1.Level = r2.Level ∧ r1.Message = r2.Message ∧
      r1.attrsButDuration = r2.attrsButDuration := by
  obtain ⟨hm, hs, hh, hp, hc, hhd, hq, hk⟩ := hreq
  have hquery : redactedQuery (next1 s1).state.ctx = redactedQuery (next2 s2).state.ctx := by
    funext k
    by_cases hkey : k = "access_key"
    · subst hkey
      simp only [redactedQuery, ← hk]
      cases hHas : (next1 s1).state.ctx.Request.URL.Query.Has "access_key"
      · simp only [Values.Has] at hHas hk
        rw [hHas] at hk
        simp only [Bool.false_eq_true, if_false]
        cases ha : (next1 s1).state.ctx.Request.URL.Query "access_key" with
        | some x => simp [ha] at hHas
        | none =>
          cases hb : (next2 s2).state.ctx.Request.URL.Query "access_key" with
          | some y => simp [hb] at hk
          | none => rfl
      · simp [Values.Set]
    · simp only [redactedQuery, ← hk]
      cases (next1 s1).state.ctx.Request.URL.Query.Has "access_key"
      · simpa using hq k hkey
      · simpa [Values.Set, hkey] using hq k hkey
  refine ⟨inboundRecord s1.now (next1 s1).state, inboundRecord s2.now (next2 s2).state,
    ?_, ?_, ?_, ?_, ?_⟩
  · rw [LogRequests_returned next1 s1 h1]
  · rw [LogRequests_returned next2 s2 h2]
  · rfl
  · rfl
  · simp [Record.attrsButDuration, inboundRecord, List.filter, hm, hs, hh, hp, hc, hhd, hquery]

/-- C2, at the requests `?access_key=s3cret&page=2` and `?access_key=hunter2&page=2`. -/
theorem C2_record_independent_of_access_key_witness :
    (okHandler (sampleState "s3cret")).exit = .returned ∧
    (okHandler (sampleState "hunter2")).exit = .returned ∧
    Request.AgreeButAccessKey (okHandler (sampleState "s3cret")).state.ctx.Request
      (okHandler (sampleState "hunter2")).state.ctx.Request ∧
    ∃ r1 r2, (LogRequests okHandler (sampleState "s3cret")).state.logs
        = (okHandler (sampleState "s3cret")).state.logs ++ [r1] ∧
      (LogRequests okHandler (sampleState "hunter2")).state.logs
        = (okHandler (sampleState "hunter2")).state.logs ++ [r2] ∧
      r1.Level = r2.Level ∧ r1.Message = r2.Message ∧
      r1.attrsButDuration = r2.attrsButDuration :=
  have hreq : Request.AgreeButAccessKey (okHandler (sampleState "s3cret")).state.ctx.Request
      (okHandler (sampleState "hunter2")).state.ctx.Request :=
    ⟨rfl, rfl, rfl, rfl, rfl, rfl,
      fun k hk => by simp [okHandler, sampleState, sampleQuery, hk], rfl⟩
  ⟨rfl, rfl, hreq,
    C2_record_independent_of_access_key okHandler okHandler (sampleState "s3cret")
      (sampleState "hunter2") rfl rfl hreq⟩

/-- C8: when the downstream chain returns, LogRequests returns as well and leaves
the state in which the downstream chain ended, with exactly one record appended
after the records written so far: an info-level record that carries the
duration, the method, the URL scheme, host and path, the redacted query
parameters, the content length and the headers of the request. -/
theorem C8_one_record_after_downstream (next : HandlerFunc) (s : State)
    (h : (next s).exit = .returned) :
    (LogRequests next s).exit = .returned ∧
    ∃ d : Int, (LogRequests next s).state =
      { (next s).state with
        logs := (next s).state.logs ++
          [⟨Level.Info, "inbound request",
            [("http.request.duration_ms", .int64 d),
             ("http.request.method", .string (next s).state.ctx.Request.Method),
             ("http.request.url.scheme", .string (next s).state.ctx.Request.URL.Scheme),
             ("http.request.url.host", .string (next s).state.ctx.Request.URL.Host),
             ("http.request.url.path", .string (next s).state.ctx.Request.URL.Path),
             ("http.request.url.query_params", .values (redactedQuery (next s).state.ctx)),
             ("http.request.content_length", .int64 (next s).state.ctx.Request.ContentLength),
             ("http.request.headers", .values (next s).state.ctx.Request.Header)]⟩] } := by
  rw [LogRequests_returned next s h]
  exact ⟨rfl, ((next s).state.now - s.now).tdiv 1000000, rfl⟩

/-- C8, at the request `?access_key=s3cret&page=2`: one info record with the eight keys. -/
theorem C8_one_record_after_downstream_witness :
    (okHandler (sampleState "s3cret")).exit = .returned ∧
    (LogRequests okHandler (sampleState "s3cret")).exit = .returned ∧
    (LogRequests okHandler (sampleState "s3cret")).state.logs.map
        (fun r => (r.Level, r.Message, r.Attrs.map Prod.fst))
      = [(Level.Info, "inbound request",
          ["http.request.duration_ms", "http.request.method", "http.request.url.scheme",
           "http.request.url.host", "http.request.url.path", "http.request.url.query_params",
           "http.request.content_length", "http.request.headers"])] := by
  obtain ⟨hexit, d, hstate⟩ := C8_one_record_after_downstream okHandler (sampleState "s3cret") rfl
  refine ⟨rfl, hexit, ?_⟩
  rw [hstate]
  rfl

/-! ## C3 to C7: Recovery -/

/-- C3 (the code at a failing input): a downstream chain panics with `boom`.
Recovery appends exactly one error record, whose text is `recovered from panic`
directly followed by the callstack; the text `boom` is not in it. With a client
at hand, the text sent to Telegram for the same panic does name `boom`. -/
theorem C3_error_record_omits_panic_value :
    (Recovery none 7 boomHandler (sampleState "s3cret")).state.logs.map
        (fun r => (r.Level, r.Message, r.Attrs.length))
      = [(Level.Error, "recovered from panicmain.a: 1\n", 0)] ∧
    ¬ ("boom".data <:+: "recovered from panicmain.a: 1\n".data) ∧
    (Recovery (some failingClient) 7 boomHandler (sampleState "s3cret")).state.sent
      = [⟨ParseModeHTML, 7, "<b>Recovered from panic: boom</b>\n<code>main.a: 1\n</code>"⟩] := by
  rw [Recovery_panicked_nil 7 boomHandler _ (.str "boom") sampleStack rfl,
    Recovery_panicked_client failingClient 7 boomHandler _ (.str "boom") sampleStack rfl,
    getCallstack_eq]
  decide

/-- C4 (as stated, fails): a downstream chain writes a response with status 200
and then panics with `boom`. Recovery returns normally and aborts the request,
but the response status stays 200: the header has already been written. -/
theorem C4_counterexample :
    (Recovery none 7 writeThenPanicHandler (sampleState "s3cret")).exit = .returned ∧
    (Recovery none 7 writeThenPanicHandler (sampleState "s3cret")).state.ctx.aborted = true ∧
    (Recovery none 7 writeThenPanicHandler (sampleState "s3cret")).state.ctx.status = 200 ∧
    (Recovery none 7 writeThenPanicHandler (sampleState "s3cret")).state.ctx.status ≠ 500 := by
  rw [Recovery_panicked_nil 7 writeThenPanicHandler _ (.str "boom") sampleStack rfl]
  decide

/-- C4 (amended): when the downstream chain panics, Recovery returns normally and
the request is aborted, whether or not a client is given and whatever its
`SendMessage` returns. The response status is 500 if the downstream chain had
not written the response header, and is the status already written otherwise.
The header counts as written afterwards, the body is left as it is, and the
response and the way Recovery ends are the same for every client. -/
theorem C4_recovery_absorbs_panic (t : Option Client) (reportChat : Int) (next : HandlerFunc)
    (s : State) (r : PanicValue) (stack : List Frame) (h : (next s).exit = .panicked r stack) :
    (Recovery t reportChat next s).exit = .returned ∧
    (Recovery t reportChat next s).state.ctx.aborted = true ∧
    ((next s).state.ctx.written = false →
      (Recovery t reportChat next s).state.ctx.status = 500) ∧
    ((next s).state.ctx.written = true →
      (Recovery t reportChat next s).state.ctx.status = (next s).state.ctx.status) ∧
    (Recovery t reportChat next s).state.ctx.written = true ∧
    (Recovery t reportChat next s).state.ctx.body = (next s).state.ctx.body ∧
    ∀ t2 : Option Client,
      (Recovery t2 reportChat next s).exit = (Recovery t reportChat next s).exit ∧
      (Recovery t2 reportChat next s).state.ctx = (Recovery t reportChat next s).state.ctx := by
  have key : ∀ u : Option Client, (Recovery u reportChat next s).exit = .returned ∧
      (Recovery u reportChat next s).state.ctx = (next s).state.ctx.AbortWithStatus 500 := by
    intro u
    cases u with
    | none => rw [Recovery_panicked_nil reportChat next s r stack h]; exact ⟨rfl, rfl⟩
    | some client =>
      rw [Recovery_panicked_client client reportChat next s r stack h]; exact ⟨rfl, rfl⟩
  refine ⟨(key t).1, ?_, ?_, ?_, ?_, ?_, ?_⟩
  · rw [(key t).2]; rfl
  · intro hw
    rw [(key t).2]
    by_cases hs : (next s).state.ctx.status = 500
    · simp [Context.AbortWithStatus, Context.Status, Context.WriteHeaderNow, Context.Abort,
        hw, hs]
    · simp [Context.AbortWithStatus, Context.Status, Context.WriteHeaderNow, Context.Abort,
        hw, hs]
  · intro hw
    rw [(key t).2]
    by_cases hs : (next s).state.ctx.status = 500
    · simp [Context.AbortWithStatus, Context.Status, Context.WriteHeaderNow, Context.Abort,
        hw, hs]
    · simp [Context.AbortWithStatus, Context.Status, Context.WriteHeaderNow, Context.Abort,
        hw, hs]
  · rw [(key t).2]
    by_cases hs : (next s).state.ctx.status = 500 <;>
      cases hw : (next s).state.ctx.written <;>
      simp [Context.AbortWithStatus, Context.Status, Context.WriteHeaderNow, Context.Abort,
        hw, hs]
  · rw [(key t).2]
    by_cases hs : (next s).state.ctx.status = 500 <;>
      cases hw : (next s).state.ctx.written <;>
      simp [Context.AbortWithStatus, Context.Status, Context.WriteHeaderNow, Context.Abort,
        hw, hs]
  · intro t2
    exact ⟨by rw [(key t2).1, (key t).1], by rw [(key t2).2, (key t).2]⟩

/-- C4 (amended), at a downstream chain that panics with `boom` before anything
is written and a client whose `SendMessage` fails. -/
theorem C4_recovery_absorbs_panic_witness :
    (boomHandler (sampleState "s3cret")).exit = .panicked (.str "boom") sampleStack ∧
    (boomHandler (sampleState "s3cret")).state.ctx.written = false ∧
    (Recovery (some failingClient) 7 boomHandler (sampleState "s3cret")).exit = .returned ∧
    (Recovery (some failingClient) 7 boomHandler (sampleState "s3cret")).state.ctx.aborted
      = true ∧
    (Recovery (some failingClient) 7 boomHandler (sampleState "s3cret")).state.ctx.status
      = 500 ∧
    (Recovery none 7 boomHandler (sampleState "s3cret")).state.ctx.status = 500 :=
  have h := C4_recovery_absorbs_panic (some failingClient) 7 boomHandler (sampleState "s3cret")
    (.str "boom") sampleStack rfl
  ⟨rfl, rfl, h.1, h.2.1, h.2.2.1 rfl, by rw [(h.2.2.2.2.2.2 none).2]; exact h.2.2.1 rfl⟩

/-- C5: when the downstream chain panics with value `r` and a client is given,
Recovery makes exactly one `SendMessage` call, with the HTML parse mode, the
chat `reportChat` and the text made of the bold summary with the rendering of
`r`, a newline and the callstack inside `code` tags; the callstack is the string
that the error record carries after `recovered from panic`. Without a client no
call is made. -/
theorem C5_recovery_notification (client : Client) (reportChat : Int) (next : HandlerFunc)
    (s : State) (r : PanicValue) (stack : List Frame) (h : (next s).exit = .panicked r stack) :
    ∃ callstack : String,
      (Recovery (some client) reportChat next s).state.sent = (next s).state.sent ++
        [⟨ParseModeHTML, reportChat,
          "<b>Recovered from panic: " ++ r.fmtV ++ "</b>\n<code>" ++ callstack ++ "</code>"⟩] ∧
      (Recovery (some client) reportChat next s).state.logs = (next s).state.logs ++
        [⟨Level.Error, "recovered from panic" ++ callstack, []⟩] ∧
      callstack = getCallstack stack ∧
      (Recovery none reportChat next s).state.sent = (next s).state.sent := by
  refine ⟨getCallstack stack, ?_, ?_, rfl, ?_⟩
  · rw [Recovery_panicked_client client reportChat next s r stack h]
  · rw [Recovery_panicked_client client reportChat next s r stack h]
  · rw [Recovery_panicked_nil reportChat next s r stack h]

/-- C5, at a downstream chain that panics with `boom`: one message to chat 7. -/
theorem C5_recovery_notification_witness :
    (boomHandler (sampleState "s3cret")).exit = .panicked (.str "boom") sampleStack ∧
    (Recovery (some failingClient) 7 boomHandler (sampleState "s3cret")).state.sent.length = 1 ∧
    (Recovery none 7 boomHandler (sampleState "s3cret")).state.sent = [] := by
  obtain ⟨callstack, hsent, _, _, hnone⟩ := C5_recovery_notification failingClient 7 boomHandler
    (sampleState "s3cret") (.str "boom") sampleStack rfl
  exact ⟨rfl, by rw [hsent]; rfl, by rw [hnone]; rfl⟩

/-- C6: when the downstream chain returns without panicking, Recovery ends as the
downstream chain did and leaves the very state it left: no record, no
`SendMessage` call, no abort and no change to the response. -/
theorem C6_recovery_pass_through (t : Option Client) (reportChat : Int) (next : HandlerFunc)
    (s : State) (h : (next s).exit = .returned) :
    Recovery t reportChat next s = next s ∧
    (Recovery t reportChat next s).state.logs = (next s).state.logs ∧
    (Recovery t reportChat next s).state.sent = (next s).state.sent ∧
    (Recovery t reportChat next s).state.ctx = (next s).state.ctx := by
  rw [Recovery_returned t reportChat next s h]
  exact ⟨rfl, rfl, rfl, rfl⟩

/-- C6, at a downstream chain that writes a body and returns. -/
theorem C6_recovery_pass_through_witness :
    (okHandler (sampleState "s3cret")).exit = .returned ∧
    Recovery (some failingClient) 7 okHandler (sampleState "s3cret")
      = okHandler (sampleState "s3cret") ∧
    (Recovery (some failingClient) 7 okHandler (sampleState "s3cret")).state.ctx.status = 200 :=
  have h := C6_recovery_pass_through (some failingClient) 7 okHandler (sampleState "s3cret") rfl
  ⟨rfl, h.1, by rw [h.1]; rfl⟩

/-- C7 (as stated, fails): with LogRequests outside and Recovery inside, and a
downstream chain that panics with `boom`, Recovery stops the panic and
LogRequests goes on to emit its `inbound request` record after the error
record. -/
theorem C7_counterexample :
    (LogRequests (Recovery none 7 boomHandler) (sampleState "s3cret")).state.logs.map
        (fun r => (r.Level, r.Message))
      = [(Level.Error, "recovered from panicmain.a: 1\n"), (Level.Info, "inbound request")] := by
  rw [LogRequests_returned _ _
      (by rw [Recovery_panicked_nil 7 boomHandler _ (.str "boom") sampleStack rfl]),
    Recovery_panicked_nil 7 boomHandler _ (.str "boom") sampleStack rfl, getCallstack_eq]
  decide

/-- C7 (amended): let the downstream chain panic. With Recovery outside and
LogRequests inside, the panic unwinds through LogRequests, which emits no
record: the only record added is the error record of Recovery. With LogRequests
outside and Recovery inside, Recovery stops the panic and LogRequests emits its
`inbound request` record after the error record. -/
theorem C7_logging_bypassed_when_recovery_is_outer (t : Option Client) (reportChat : Int)
    (next : HandlerFunc) (s : State) (r : PanicValue) (stack : List Frame)
    (h : (next s).exit = .panicked r stack) :
    (LogRequests next s).exit = .panicked r stack ∧
    (LogRequests next s).state.logs = (next s).state.logs ∧
    (Recovery t reportChat (LogRequests next) s).state.logs = (next s).state.logs ++
      [⟨Level.Error, "recovered from panic" ++ getCallstack stack, []⟩] ∧
    ∃ rec, rec.Level = Level.Info ∧ rec.Message = "inbound request" ∧
      (LogRequests (Recovery t reportChat next) s).state.logs = (next s).state.logs ++
        [⟨Level.Error, "recovered from panic" ++ getCallstack stack, []⟩, rec] := by
  have hlog := LogRequests_panicked next s r stack h
  have hin : (LogRequests next s).exit = .panicked r stack := by rw [hlog]
  have hrec : (Recovery t reportChat next s).exit = .returned ∧
      (Recovery t reportChat next s).state.logs = (next s).state.logs ++
        [⟨Level.Error, "recovered from panic" ++ getCallstack stack, []⟩] := by
    cases t with
    | none => rw [Recovery_panicked_nil reportChat next s r stack h]; exact ⟨rfl, rfl⟩
    | some client =>
      rw [Recovery_panicked_client client reportChat next s r stack h]; exact ⟨rfl, rfl⟩
  refine ⟨hin, by rw [hlog], ?_, ?_⟩
  · cases t with
    | none => rw [Recovery_panicked_nil reportChat _ s r stack hin, hlog]
    | some client => rw [Recovery_panicked_client client reportChat _ s r stack hin, hlog]
  · refine ⟨inboundRecord s.now (Recovery t reportChat next s).state, rfl, rfl, ?_⟩
    rw [LogRequests_returned _ s hrec.1]
    simp [hrec.2]

/-- C7 (amended), at a downstream chain that panics with `boom`. -/
theorem C7_logging_bypassed_when_recovery_is_outer_witness :
    (boomHandler (sampleState "s3cret")).exit = .panicked (.str "boom") sampleStack ∧
    (Recovery none 7 (LogRequests boomHandler) (sampleState "s3cret")).state.logs.length = 1 ∧
    (LogRequests boomHandler (sampleState "s3cret")).state.logs = [] :=
  have h := C7_logging_bypassed_when_recovery_is_outer none 7 boomHandler (sampleState "s3cret")
    (.str "boom") sampleStack rfl
  ⟨rfl, by rw [h.2.2.1]; rfl, by rw [h.2.1]; rfl⟩

end httpx
